import Mathlib

/-!
# OpenDACHS ticket lifecycle — shallow embedding

This file embeds the ticket-lifecycle core of the OpenDACHS repository
(`src/ticket_manager.py`, `src/sqlite.py`, `src/ticket.py`, and the earlier
revision `src/od_ticket_manager.py` / `src/od_sqlite.py`) as executable Lean
definitions, and proves or refutes the specification's claims about it.

Modelling conventions:

* Python strings are `String`, Python ints and `datetime` instants are `Int`
  (an instant is its POSIX second count; `timedelta(days=3)` is `3 * 86400`).
* JSON values are the inductive `Json`.  The two serialized columns of a
  ticket row (`user`, `metadata`) hold `json.dumps` output; since `json.loads`
  inverts `json.dumps` (standard-library contract), the serialized text is
  represented by the `Json` value it encodes.
* Fallible Python code returns `Except Err α`; each `try/except` of the source
  is modelled by mapping the body's error to the error the handler produces.
  `sqlite.py` wraps every failure in `RuntimeError`.  The `except` clauses of
  `ticket_manager.py` name `src.sqlite.SQLiteError`, an attribute that does
  not exist in `sqlite.py`; evaluating such a clause while an exception is
  being handled raises `AttributeError`, so any failure inside those bodies
  propagates as `AttributeError` (constructor `Err.attributeError`).
* DB-API parameter binding is modelled faithfully: `executemany` iterates its
  second argument, and each element must be a sequence whose length equals the
  number of `?` placeholders; a Python `str` is a sequence of its characters.
* Side effects are threaded through explicit state (`MState`, `OdState`);
  external collaborators (web capture, Webrecorder API, SMTP delivery,
  template files, the random source, the clock) are oracle parameters
  (`Ext`, `OdExt`).  The Webrecorder trigger (`api.py`'s `api_call`, imported
  as `src.od_api`, and `TicketManager.call_api`) runs a docker subprocess
  that either succeeds or raises; it is abstracted to a success/failure
  oracle.
-/

namespace OpenDACHS

/-- Python exception classes that appear in the modelled control flow. -/
inductive Err
  | runtimeError       -- `RuntimeError` (raised by every `sqlite.py` wrapper)
  | ticketError        -- `src.ticket.TicketError`
  | ticketManagerError -- `src.ticket_manager.TicketManagerError`
  | scraperError       -- `src.scraper.ScraperError`
  | attributeError     -- `AttributeError` from evaluating `src.sqlite.SQLiteError`
  | typeError          -- `TypeError` (unexpected keyword argument)
  | keyError           -- `KeyError` (dict subscript miss)
  | assertionError     -- `AssertionError` (`od_sqlite.select` uniqueness assert)
  deriving DecidableEq, Repr

/-- JSON values (`json.dumps` / `json.loads` image).  Numbers are restricted
to integers, which covers every value the ticket flows serialize. -/
inductive Json
  | null
  | bool (b : Bool)
  | num (n : Int)
  | str (s : String)
  | arr (xs : List Json)
  | obj (kvs : List (String × Json))

mutual

/-- Structural equality test on JSON values (Python `==`). -/
def Json.beq : Json → Json → Bool
  | .null, .null => true
  | .bool a, .bool b => a == b
  | .num a, .num b => a == b
  | .str a, .str b => a == b
  | .arr xs, .arr ys => Json.beqArr xs ys
  | .obj xs, .obj ys => Json.beqObj xs ys
  | _, _ => false

/-- Elementwise equality of JSON arrays. -/
def Json.beqArr : List Json → List Json → Bool
  | [], [] => true
  | x :: xs, y :: ys => Json.beq x y && Json.beqArr xs ys
  | _, _ => false

/-- Elementwise equality of JSON objects (insertion-ordered, as in the dicts
produced by `json.loads`). -/
def Json.beqObj : List (String × Json) → List (String × Json) → Bool
  | [], [] => true
  | (k, v) :: xs, (l, w) :: ys => k == l && Json.beq v w && Json.beqObj xs ys
  | _, _ => false

end

instance : BEq Json := ⟨Json.beq⟩

/-- First value bound to a key in a JSON object (Python `dict` subscript),
`none` when the key is absent or the value is not an object. -/
def Json.lookup : Json → String → Option Json
  | .obj kvs, k => (kvs.find? (fun kv => kv.1 == k)).map (·.2)
  | _, _ => none

/-! ## Credential generator (`TicketManager.generate_username` /
`TicketManager.generate_password`, `ticket_manager.py` lines 79–126) -/

/-- `string.ascii_letters + string.digits`. -/
def alphabet : List Char :=
  "abcdefghijklmnopqrstuvwxyzABCDEFGHIJKLMNOPQRSTUVWXYZ0123456789".data

/-- `random.choice(alphabet)`: an arbitrary element of `alphabet`, selected by
the random source's draw `k` (reduced mod the length, as `randbelow` bounds
the index). -/
def choice (l : List Char) (k : Nat) : Char :=
  l.getD (k % l.length) 'a'

/-- The characters `random.choice` picks for positions `0..n-1` under random
source `r`. -/
def pickString (r : Nat → Nat) (n : Nat) : String :=
  String.mk ((List.range n).map (fun i => choice alphabet (r i)))

/-- `TicketManager.generate_username(length)`: rejects `length < 1`
(`ValueError` wrapped into `TicketManagerError`), otherwise joins `length`
draws of `random.choice(alphabet)`. -/
def generate_username (r : Nat → Nat) (length : Int) : Except Err String :=
  if length < 1 then .error .ticketManagerError
  else .ok (pickString r length.toNat)

/-- `os.urandom(n)` under byte source `b`: `n` arbitrary bytes. -/
def urandomBytes (b : Nat → Nat) (n : Nat) : List Nat :=
  (List.range n).map (fun i => b i % 256)

/-- The base64 alphabet used by `base64.b64encode`. -/
def b64alphabet : List Char :=
  "ABCDEFGHIJKLMNOPQRSTUVWXYZabcdefghijklmnopqrstuvwxyz0123456789+/".data

/-- One base64 digit. -/
def b64digit (i : Nat) : Char := b64alphabet.getD i 'A'

/-- `base64.b64encode`: 3 input bytes become 4 digits; a 1- or 2-byte tail is
padded with `=`. -/
def b64encode : List Nat → List Char
  | [] => []
  | [b0] =>
      [b64digit (b0 / 4), b64digit (b0 % 4 * 16), '=', '=']
  | [b0, b1] =>
      [b64digit (b0 / 4), b64digit (b0 % 4 * 16 + b1 / 16),
       b64digit (b1 % 16 * 4), '=']
  | b0 :: b1 :: b2 :: rest =>
      b64digit (b0 / 4) :: b64digit (b0 % 4 * 16 + b1 / 16) ::
      b64digit (b1 % 16 * 4 + b2 / 64) :: b64digit (b2 % 64) ::
      b64encode rest

/-- The password body: `alphabet[ord(char) % len(alphabet)]` for every char of
`base64.b64encode(os.urandom(length)).decode()`. -/
def b64password (b : Nat → Nat) (n : Nat) : String :=
  String.mk ((b64encode (urandomBytes b n)).map
    (fun c => alphabet.getD (c.toNat % alphabet.length) 'a'))

/-- `TicketManager.generate_password(length)`: rejects `length < 1`, otherwise
maps the base64 encoding of `length` random bytes through `alphabet` — note
the result has the base64 length `4 * ⌈length/3⌉`, not `length`. -/
def generate_password (b : Nat → Nat) (length : Int) : Except Err String :=
  if length < 1 then .error .ticketManagerError
  else .ok (b64password b length.toNat)

/-! ## Ticket record (`ticket.py`) -/

/-- `src.ticket.User` (namedtuple `username, role, password, email_addr`).
All writers in the repository populate the four slots with strings. -/
structure User where
  username : String
  role : String
  password : String
  email_addr : String

/-- `src.ticket.Ticket`: the in-memory ticket object. -/
structure Ticket where
  id_ : String
  user : User
  archive : String
  metadata : Json
  flag : String
  timestamp : Int

/-- One row of the `tickets` table, in the fixed column order
`(ticket, user, archive, metadata, flag, timestamp)`.  The `user` and
`metadata` columns hold `json.dumps` output, represented by the encoded
`Json` value (see header). -/
structure Row where
  ticket : String
  user : Json
  archive : String
  metadata : Json
  flag : String
  timestamp : Int

/-- `Ticket.get_row` (`ticket.py` lines 89–108): the SQLite row
`(id_, json.dumps(list(user)), archive, json.dumps(metadata), flag,
timestamp)`. -/
def Ticket.get_row (t : Ticket) : Row :=
  { ticket := t.id_
    user := .arr [.str t.user.username, .str t.user.role,
                  .str t.user.password, .str t.user.email_addr]
    archive := t.archive
    metadata := t.metadata
    flag := t.flag
    timestamp := t.timestamp }

/-- `Ticket.get_ticket` (`ticket.py` lines 110–133): decode a row (possibly
`None`, as `select_row` returns).  Subscripting `None` raises `TypeError` and
`User(*json.loads(row[1]))` needs exactly four (string) elements; any failure
is wrapped in `TicketError`. -/
def Ticket.get_ticket : Option Row → Except Err Ticket
  | none => .error .ticketError
  | some r =>
    match r.user with
    | .arr [.str a, .str b, .str c, .str d] =>
        .ok { id_ := r.ticket, user := ⟨a, b, c, d⟩, archive := r.archive,
              metadata := r.metadata, flag := r.flag, timestamp := r.timestamp }
    | _ => .error .ticketError

/-! ## SQLite client (`sqlite.py`)

The store is the list of table rows.  DB-API parameters are Python values
(`Py`); binding follows `sqlite3`: `execute`/`executemany` bind a *sequence*
against the `?` placeholders, and a `str` is a sequence of its characters. -/

/-- A Python value passed as a DB-API parameter (or parameter collection). -/
inductive Py
  | str (s : String)
  | int (n : Int)
  | tup (xs : List Py)

/-- A value stored in (or bound to) a table column. -/
inductive DbVal
  | text (s : String)
  | intv (n : Int)
  | jsonv (j : Json)

/-- Equality used by SQL `=` between a column value and a bound value. -/
def DbVal.beq : DbVal → DbVal → Bool
  | .text a, .text b => a == b
  | .intv a, .intv b => a == b
  | .jsonv a, .jsonv b => a == b
  | _, _ => false

instance : BEq DbVal := ⟨DbVal.beq⟩

/-- Python truthiness of a parameter value (`if column and parameters:`). -/
def Py.truthy : Py → Bool
  | .str s => s ≠ ""
  | .int n => n ≠ 0
  | .tup xs => !xs.isEmpty

/-- The sequence view `sqlite3` takes of a parameter collection: a tuple
yields its elements, a `str` yields its characters (each a 1-char `str`);
an `int` is not a sequence. -/
def Py.seq : Py → Option (List Py)
  | .str s => some (s.data.map (fun c => Py.str (String.mk [c])))
  | .tup xs => some xs
  | .int _ => none

/-- A single bound value, as stored by SQLite (`tuple` is unsupported). -/
def Py.toDb : Py → Option DbVal
  | .str s => some (.text s)
  | .int n => some (.intv n)
  | .tup _ => none

/-- The table's column names (test configuration `column_defs`, mirroring the
fixed order of `Ticket.get_row`). -/
def validColumn (c : String) : Bool :=
  c == "ticket" || c == "user" || c == "archive" || c == "metadata" ||
  c == "flag" || c == "timestamp"

/-- The value a row holds in a named column. -/
def Row.col (r : Row) (c : String) : Option DbVal :=
  if c == "ticket" then some (.text r.ticket)
  else if c == "user" then some (.jsonv r.user)
  else if c == "archive" then some (.text r.archive)
  else if c == "metadata" then some (.jsonv r.metadata)
  else if c == "flag" then some (.text r.flag)
  else if c == "timestamp" then some (.intv r.timestamp)
  else none

/-- Store a bound value into a named column.  The flows only ever write text
into the `flag` column; a write our typed row cannot represent is reported as
an error (it never occurs, see `update_rows`). -/
def Row.setCol (r : Row) (c : String) (v : DbVal) : Option Row :=
  if c == "flag" then
    match v with
    | .text s => some { r with flag := s }
    | _ => none
  else if c == "ticket" then
    match v with
    | .text s => some { r with ticket := s }
    | _ => none
  else if c == "timestamp" then
    match v with
    | .intv n => some { r with timestamp := n }
    | _ => none
  else none

/-- The rows of the table. -/
abbrev Store := List Row

/-- Body of `SQLiteClient.select_rows` (`sqlite.py` lines 111–140): with both
`column` and `parameters` given, `SELECT * FROM table WHERE column = ?`;
with neither, all rows; with exactly one, `RuntimeError`.  Every failure
(unknown column, binding-count mismatch, unsupported type) is wrapped in
`RuntimeError`. -/
def select_rows (store : Store) (column : String) (parameters : Py) :
    Except Err (List Row) :=
  if column ≠ "" ∧ parameters.truthy then
    if validColumn column then
      match parameters.seq with
      | some [p] =>
        match p.toDb with
        | some v => .ok (store.filter (fun r => r.col column == some v))
        | none => .error .runtimeError
      | _ => .error .runtimeError
    else .error .runtimeError
  else if column ≠ "" ∨ parameters.truthy then .error .runtimeError
  else .ok store

/-- Keyword-call wrapper for `select_rows`: its `def` line accepts only the
keywords `column` and `parameters`; a call with any other keyword raises
`TypeError` before the body runs (this is how `remove_expired` invokes it,
passing `operator="<"`). -/
def select_rows_kwcall (store : Store) (kwargs : List (String × Py)) :
    Except Err (List Row) :=
  if kwargs.any (fun kv => kv.1 ≠ "column" ∧ kv.1 ≠ "parameters") then
    .error .typeError
  else
    select_rows store
      (match (kwargs.find? (fun kv => kv.1 == "column")).map (·.2) with
       | some (Py.str c) => c
       | _ => "")
      ((kwargs.find? (fun kv => kv.1 == "parameters")).map (·.2) |>.getD
        (Py.tup []))

/-- `SQLiteClient.select_row` (`sqlite.py` lines 142–163).  Note the source's
branch bodies: more than one row is an error; `elif len(rows): row = None`
returns `None` exactly when one row matched; otherwise `rows[0]` subscripts
the empty list (`IndexError`).  Every failure is wrapped in `RuntimeError`. -/
def select_row (store : Store) (column : String) (parameters : Py) :
    Except Err (Option Row) :=
  match select_rows store column parameters with
  | .error _ => .error .runtimeError
  | .ok rows =>
    if 1 < rows.length then .error .runtimeError
    else if rows.length ≠ 0 then .ok none
    else .error .runtimeError

/-- One execution of `UPDATE table SET column0 = ? WHERE column1 = ?` with
bound values `v0` (new value) and `v1` (key). -/
def updateOnce (store : Store) (column0 column1 : String) (v0 v1 : DbVal) :
    Except Err Store :=
  if validColumn column0 ∧ validColumn column1 then
    store.mapM (fun r =>
      if r.col column1 == some v1 then r.setCol column0 v0 else some r)
    |>.elim (.error .runtimeError) .ok
  else .error .runtimeError

/-- `executemany` of the two-placeholder `UPDATE`: iterate the parameter
collection; each element must be a sequence of length 2 of bindable values.
Changes are committed only after every element succeeded (the connection is
never committed when an exception escapes `executemany`). -/
def updateMany (store : Store) (column0 column1 : String) :
    List Py → Except Err Store
  | [] => .ok store
  | q :: qs =>
    match q.seq with
    | some [a, b] =>
      match a.toDb, b.toDb with
      | some v0, some v1 =>
        match updateOnce store column0 column1 v0 v1 with
        | .ok store' => updateMany store' column0 column1 qs
        | .error e => .error e
      | _, _ => .error .runtimeError
    | _ => .error .runtimeError

/-- `SQLiteClient.update_rows` (`sqlite.py` lines 165–201): run the
`executemany` `UPDATE` (all-or-nothing, see `updateMany`), then — after the
commit — re-`select_rows` with the *same* `parameters`; a failure of that
select does not undo the committed update. -/
def update_rows (store : Store) (column0 : String) (parameters : Py)
    (column1 : String) : Store × Except Err (List Row) :=
  if column1 == "" then (store, .error .runtimeError)
  else
    match parameters.seq with
    | none => (store, .error .runtimeError)
    | some qs =>
      match updateMany store column0 column1 qs with
      | .error _ => (store, .error .runtimeError)
      | .ok store' =>
        match select_rows store' column1 parameters with
        | .error _ => (store', .error .runtimeError)
        | .ok rows => (store', .ok rows)

/-- `SQLiteClient.update_row` (`sqlite.py` lines 203–229): `update_rows`, then
the same unique-row post-processing as `select_row` — except that here the
zero-row case correctly yields `None` and the one-row case yields the row. -/
def update_row (store : Store) (column0 column1 : String) (parameters : Py) :
    Store × Except Err (Option Row) :=
  match update_rows store column0 parameters column1 with
  | (store', .error _) => (store', .error .runtimeError)
  | (store', .ok rows) =>
    match rows with
    | [] => (store', .ok none)
    | [r] => (store', .ok (some r))
    | _ => (store', .error .runtimeError)

/-- `executemany` of the one-placeholder `DELETE FROM table WHERE column = ?`
(all-or-nothing, as for `updateMany`). -/
def deleteMany (store : Store) (column : String) : List Py → Except Err Store
  | [] => .ok store
  | q :: qs =>
    match q.seq with
    | some [a] =>
      match a.toDb with
      | some v =>
        if validColumn column then
          deleteMany (store.filter (fun r => ¬(r.col column == some v)))
            column qs
        else .error .runtimeError
      | none => .error .runtimeError
    | _ => .error .runtimeError

/-- `SQLiteClient.delete` (`sqlite.py` lines 231–249). -/
def delete (store : Store) (column : String) (parameters : Py) :
    Store × Except Err Unit :=
  match parameters.seq with
  | none => (store, .error .runtimeError)
  | some qs =>
    match deleteMany store column qs with
    | .ok store' => (store', .ok ())
    | .error _ => (store, .error .runtimeError)

/-! ## Ticket manager (`ticket_manager.py`)

Side effects are threaded through `MState`; external collaborators are the
oracle bundle `Ext`. -/

/-- External collaborators and ambient inputs of one `manage` run:
the random streams feeding `generate_username` / `generate_password`, the
clock (`datetime.datetime.now()`), the web-capture engine
(`src.scraper.Scraper.archive`, succeeding or failing per URL), and the
Webrecorder API container call (`TicketManager.call_api`). -/
structure Ext where
  randU : Nat → Nat
  randP : Nat → Nat
  now : Int
  captureOk : String → Bool
  apiOk : Bool

/-- Observable state of a run: the ticket table, the set of existing
filesystem paths (WARC artifacts, storage copies), the ticket ids dumped to
side JSON files (`dump_ticket`), the notifications handed to SMTP as
`(ticket id, template name)`, and the ids of the descriptor files the batch
loop has opened (`json.load(open(filename))`). -/
structure MState where
  store : Store
  files : List String
  jsonDumps : List String
  mails : List (String × String)
  processed : List String

/-- An inbound ticket-descriptor file: the JSON object
`{ticket, email, flag, url, ...bibliographic fields}`. -/
structure Data where
  ticket : String
  email : String
  flag : String
  url : String
  extra : List (String × Json)

/-- `metadata` of `_initialize_ticket`: every key of the descriptor except
`email`, `ticket` and `flag`. -/
def Data.metadata (d : Data) : Json :=
  .obj (("url", .str d.url) :: d.extra)

/-- `TicketManager.archive` (`ticket_manager.py` lines 128–143): run the
scraper on `ticket.metadata["url"]`, writing the artifact at
`ticket.archive`; a capture failure is `ScraperError`, a missing `url` key a
`TicketManagerError`. -/
def archive (ext : Ext) (st : MState) (t : Ticket) :
    MState × Except Err Unit :=
  match t.metadata.lookup "url" with
  | some (Json.str u) =>
    if ext.captureOk u then
      ({ st with files := st.files ++ [t.archive] }, .ok ())
    else (st, .error .scraperError)
  | _ => (st, .error .ticketManagerError)

/-- `TicketManager.dump_ticket` (`ticket_manager.py` lines 145–160): write
the ticket's JSON form to `tmp/json_files/{id}.json` (operator side channel,
never read back). -/
def dump_ticket (st : MState) (t : Ticket) : MState :=
  { st with jsonDumps := st.jsonDumps ++ [t.id_] }

/-- `TicketManager.confirm` (`ticket_manager.py` lines 451–477):
`update_row("flag", "ticket", (data["flag"], data["ticket"]))` followed by
`Ticket.get_ticket(row)`.  Any failure hits the
`except (src.sqlite.SQLiteError, src.ticket.TicketError)` clause, whose
evaluation raises `AttributeError`. -/
def confirm (st : MState) (d : Data) : MState × Except Err Ticket :=
  match update_row st.store "flag" "ticket" (Py.tup [Py.str d.flag, Py.str d.ticket]) with
  | (store', .error _) => ({ st with store := store' }, .error .attributeError)
  | (store', .ok row) =>
    match Ticket.get_ticket row with
    | .error _ => ({ st with store := store' }, .error .attributeError)
    | .ok t => ({ st with store := store' }, .ok t)

/-- `shutil.copytree(path, storage)`: duplicate the subtree rooted at `path`
under `storage`. -/
def copytree (files : List String) (src dst : String) : List String :=
  files ++ files.filterMap (fun p =>
    if src.isPrefixOf p then some (dst ++ p.drop src.length) else none)

/-- Lines 491–507 of `TicketManager.accept`, reached only with a decoded
ticket in hand: relocate the artifact (copy the Webrecorder user directory
if it exists, else copy the single WARC into a fresh `storage/{ticket}`
directory), unlink the temporary artifact, delete the row, set the in-memory
flag to `"deleted"`, dump the side JSON. -/
def acceptBody (st : MState) (d : Data) (t : Ticket) :
    MState × Except Err Ticket :=
  let storage := "storage/" ++ d.ticket
  let path := "./../webrecorder/data/warcs/" ++ t.user.username
  let st1 :=
    if path ∈ st.files then
      some { st with files := copytree st.files path storage }
    else if t.archive ∈ st.files then
      some { st with files :=
        st.files ++ [storage, storage ++ "/" ++ t.id_ ++ ".warc"] }
    else none
  match st1 with
  | none => ({ st with files := st.files ++ [storage] }, .error .attributeError)
  | some st2 =>
    if t.archive ∈ st2.files then
      let st3 := { st2 with files := st2.files.erase t.archive }
      match delete st3.store "ticket" (Py.tup [Py.tup [Py.str t.id_]]) with
      | (store', .ok ()) =>
        (dump_ticket { st3 with store := store' } { t with flag := "deleted" },
         .ok { t with flag := "deleted" })
      | (store', .error _) =>
        ({ st3 with store := store' }, .error .attributeError)
    else (st2, .error .attributeError)

/-- `TicketManager.accept` (`ticket_manager.py` lines 479–524): look the row
up via `select_row`, decode it, then relocate / delete (`acceptBody`).  Any
failure hits an `except` clause naming `src.sqlite.SQLiteError` and
propagates as `AttributeError`. -/
def accept (st : MState) (d : Data) : MState × Except Err Ticket :=
  match select_row st.store "ticket" (Py.tup [Py.str d.ticket]) with
  | .error _ => (st, .error .attributeError)
  | .ok row =>
    match Ticket.get_ticket row with
    | .error _ => (st, .error .attributeError)
    | .ok t => acceptBody st d t

/-- `TicketManager.deny` (`ticket_manager.py` lines 526–558): like `accept`
but the artifact is removed (`os.unlink`) instead of relocated. -/
def deny (st : MState) (d : Data) : MState × Except Err Ticket :=
  match select_row st.store "ticket" (Py.tup [Py.str d.ticket]) with
  | .error _ => (st, .error .attributeError)
  | .ok row =>
    match Ticket.get_ticket row with
    | .error _ => (st, .error .attributeError)
    | .ok t =>
      if t.archive ∈ st.files then
        let st1 := { st with files := st.files.erase t.archive }
        match delete st1.store "ticket" (Py.tup [Py.tup [Py.str t.id_]]) with
        | (store', .ok ()) =>
          (dump_ticket { st1 with store := store' } { t with flag := "deleted" },
           .ok { t with flag := "deleted" })
        | (store', .error _) =>
          ({ st1 with store := store' }, .error .attributeError)
      else (st, .error .attributeError)

/-- The per-ticket sweep loop of `remove_expired` (lines 573–600), reached
only if the select succeeded: remove each ticket whose *stored* flag is
`"pending"`, yielding it. -/
def sweepLoop (st : MState) : List Ticket → MState × List Ticket × Option Err
  | [] => (st, [], none)
  | t :: ts =>
    if t.flag == "pending" then
      if t.archive ∈ st.files then
        let st1 := { st with files := st.files.erase t.archive }
        match delete st1.store "ticket" (Py.tup [Py.tup [Py.str t.id_]]) with
        | (store', .ok ()) =>
          let st2 := dump_ticket { st1 with store := store' }
            { t with flag := "deleted" }
          match sweepLoop st2 ts with
          | (st3, ys, e) => (st3, { t with flag := "deleted" } :: ys, e)
        | (store', .error _) =>
          ({ st1 with store := store' }, [], some .attributeError)
      else (st, [], some .attributeError)
    else sweepLoop st ts

/-- `TicketManager.remove_expired` (`ticket_manager.py` lines 560–612), a
generator consumed by `manage`.  Its first step calls
`select_rows(column="timestamp", parameters=(now - 3 days,), operator="<")`;
`select_rows` accepts no keyword `operator`, so the call raises `TypeError`,
which the `except` clause naming `src.sqlite.SQLiteError` turns into
`AttributeError` — before anything is yielded.  Result: final state, the
tickets yielded before the failure, and the error if one escaped. -/
def remove_expired (ext : Ext) (st : MState) :
    MState × List Ticket × Option Err :=
  match select_rows_kwcall st.store
      [("column", Py.str "timestamp"),
       ("parameters", Py.tup [Py.int (ext.now - 3 * 86400)]),
       ("operator", Py.str "<")] with
  | .error _ => (st, [], some .attributeError)
  | .ok rows =>
    match rows.mapM (fun r => (Ticket.get_ticket (some r)).toOption) with
    | none => (st, [], some .attributeError)
    | some ts => sweepLoop st ts

/-! ## Batch runner (`TicketManager.manage`, `ticket_manager.py` lines
642–723) -/

/-- A stored record for ticket `T1`: inserted by `submit` from the spec's
scenario descriptor, hence stored flag `"pending"`, artifact at the
temporary path, timestamp 0. -/
def row1 : Row :=
  { ticket := "T1"
    user := .arr [.str "u8u8u8u8", .str "archivist", .str "p16", .str "a@b.com"]
    archive := "tmp/warcs/T1.warc"
    metadata := .obj [("url", .str "http://x")]
    flag := "pending"
    timestamp := 0 }

/-- A run state holding exactly the record `row1` and its artifact. -/
def st1 : MState :=
  { store := [row1]
    files := ["tmp/warcs/T1.warc"]
    jsonDumps := []
    mails := []
    processed := [] }

/-- An oracle bundle under which every external collaborator succeeds; the
clock reads day 4, so `row1` (timestamp 0) is older than the 3-day retention
window. -/
def extC : Ext :=
  { randU := fun _ => 0
    randP := fun _ => 0
    now := 4 * 86400
    captureOk := fun _ => true
    apiOk := true }

/-- The spec scenario's `accept` descriptor for ticket `T1`. -/
def dAcc : Data :=
  { ticket := "T1", email := "a@b.com", flag := "accepted", url := "http://x",
    extra := [] }

/-- The spec scenario's `confirm` descriptor for ticket `T1`. -/
def dCon : Data :=
  { ticket := "T1", email := "a@b.com", flag := "confirmed", url := "http://x",
    extra := [] }

/-- `select_row` can return `None` or raise, but never an actual row: the
source's `elif len(rows): row = None` / `else: row = rows[0]` branches are
swapped relative to the row counts they can serve. -/
theorem select_row_never_some (store : Store) (column : String) (p : Py)
    (r : Row) : select_row store column p ≠ .ok (some r) := by
  unfold select_row
  cases h : select_rows store column p with
  | error e => simp
  | ok rows =>
    by_cases h1 : 1 < rows.length
    · simp [h1]
    · by_cases h2 : rows.length ≠ 0 <;> simp [h1, h2]

/-- `accept` fails on every state and descriptor, leaving the state
untouched: `select_row` yields `None` (or raises), `Ticket.get_ticket(None)`
raises `TicketError`, and the `except` clause naming the nonexistent
`src.sqlite.SQLiteError` converts the failure to `AttributeError`. -/
theorem accept_eq (st : MState) (d : Data) :
    accept st d = (st, .error .attributeError) := by
  unfold accept
  cases h : select_row st.store "ticket" (Py.tup [Py.str d.ticket]) with
  | error e => rfl
  | ok o =>
    cases o with
    | none => rfl
    | some r => exact absurd h (select_row_never_some _ _ _ r)

/-- `deny` fails on every state and descriptor, exactly as `accept` does. -/
theorem deny_eq (st : MState) (d : Data) :
    deny st d = (st, .error .attributeError) := by
  unfold deny
  cases h : select_row st.store "ticket" (Py.tup [Py.str d.ticket]) with
  | error e => rfl
  | ok o =>
    cases o with
    | none => rfl
    | some r => exact absurd h (select_row_never_some _ _ _ r)

/-- `confirm` on a `confirmed` descriptor fails with the store untouched:
`executemany` binds the 9-character string `"confirmed"` against the two
`?` placeholders of the `UPDATE`, raising before anything is written. -/
theorem confirm_confirmed_eq (st : MState) (d : Data)
    (h : d.flag = "confirmed") :
    confirm st d = (st, .error .attributeError) := by
  obtain ⟨dt, de, df, du, dx⟩ := d
  simp only at h
  subst h
  rfl

/-- Length of a base64 encoding: four output characters per three-byte
group, the tail group padded to four. -/
theorem b64encode_length (bs : List Nat) :
    (b64encode bs).length = 4 * ((bs.length + 2) / 3) := by
  induction bs using b64encode.induct with
  | case1 => rfl
  | case2 b0 => simp [b64encode]
  | case3 b0 b1 => simp [b64encode]
  | case4 b0 b1 b2 rest ih =>
    simp only [b64encode, List.length_cons, ih]
    omega

/-- Every character drawn by `choice` from the credential alphabet lies in
the alphabet. -/
theorem choice_mem (k : Nat) : choice alphabet k ∈ alphabet := by
  have hlen : alphabet.length = 62 := rfl
  have hk : k % alphabet.length < alphabet.length := by
    rw [hlen]; exact Nat.mod_lt _ (by norm_num)
  rw [choice, List.getD_eq_getElem _ _ hk]
  exact List.getElem_mem _

/-- Every character of the password body lies in the credential alphabet. -/
theorem b64password_mem (b : Nat → Nat) (n : Nat) (c : Char)
    (hc : c ∈ (b64password b n).data) : c ∈ alphabet := by
  rw [b64password] at hc
  simp only [String.data] at hc
  obtain ⟨x, _, hx⟩ := List.mem_map.mp hc
  have hlen : alphabet.length = 62 := rfl
  have hk : x.toNat % alphabet.length < alphabet.length := by
    rw [hlen]; exact Nat.mod_lt _ (by norm_num)
  rw [← hx, List.getD_eq_getElem _ _ hk]
  exact List.getElem_mem _

/-- C1.  The claim describes a successful `accept` (artifact relocated,
record deleted) and a successful `deny`; in the code neither operation can
ever succeed: for every state and descriptor — in particular whenever a
record with the descriptor's id is in the store — both fail with
`AttributeError` and leave the state untouched, because `select_row` never
hands the existing row back (its branches are swapped, see C9). -/
theorem accept_deny_fail_store_unchanged (st : MState) (d : Data) :
    accept st d = (st, .error .attributeError) ∧
    deny st d = (st, .error .attributeError) :=
  ⟨accept_eq st d, deny_eq st d⟩

/-- C2.  Failing input for the expiry sweep: the store holds exactly one
record, 4 days old and never confirmed (stored flag `"pending"`), yet
`remove_expired` raises on its first step — the `select_rows` call passes
the unsupported keyword `operator` — removing nothing, deleting nothing and
yielding nothing, where the claim says this record is removed and yielded as
expired. -/
theorem expiry_sweep_fails_on_old_record :
    remove_expired extC st1 = (st1, [], some .attributeError) ∧
    3 * 86400 < extC.now - row1.timestamp := ⟨rfl, by decide⟩

/-- C6.  The claim presumes executions of `accept` that reach the artifact
relocation step; in the code no execution ever does: `accept` fails during
the record lookup on every input, so the store delete is never issued (and
no artifact is ever moved) — the guarded ordering the claim describes is
unreachable. -/
theorem accept_never_deletes_record (st : MState) (d : Data) :
    (accept st d).1.store = st.store ∧ (accept st d).1.files = st.files ∧
    (accept st d).2 = .error .attributeError := by
  rw [accept_eq st d]
  exact ⟨rfl, rfl, rfl⟩

/-- C7.  Round-trip law: decoding the storage row produced by encoding a
ticket record reconstructs the record in every field. -/
theorem get_ticket_get_row_roundtrip (t : Ticket) :
    Ticket.get_ticket (some t.get_row) = .ok t := by
  obtain ⟨i, ⟨a, b, c, d⟩, ar, m, f, ts⟩ := t
  rfl

/-- C9.  `select_row` never returns a matching row: under the query shape the
code uses (a valid column, one bindable parameter), exactly one matching row
yields `None` and zero matching rows yield an error; consequently `accept`
and `deny`, which read the record through `select_row`, never observe an
existing record and always fail. -/
theorem select_row_inverted (store : Store) (column : String) (p : Py)
    (v : DbVal) (hcol : validColumn column = true) (hv : p.toDb = some v) :
    ((store.filter (fun r => r.col column == some v)).length = 1 →
      select_row store column (Py.tup [p]) = .ok none) ∧
    ((store.filter (fun r => r.col column == some v)).length = 0 →
      select_row store column (Py.tup [p]) = .error .runtimeError) ∧
    (∀ (st : MState) (d : Data),
      (accept st d).2 = .error .attributeError ∧
      (deny st d).2 = .error .attributeError) := by
  have hne : column ≠ "" := by
    intro h
    rw [h] at hcol
    simp [validColumn] at hcol
  have hsel : select_rows store column (Py.tup [p]) =
      .ok (store.filter (fun r => r.col column == some v)) := by
    simp [select_rows, hne, Py.truthy, Py.seq, hv, hcol]
  refine ⟨fun h1 => ?_, fun h0 => ?_, fun st d => ?_⟩
  · simp [select_row, hsel, h1]
  · simp [select_row, hsel, h0]
  · rw [accept_eq st d, deny_eq st d]
    exact ⟨rfl, rfl⟩

/-- Witness for C9: on a store holding exactly the record `T1`, the lookup
for `T1` (one matching row) returns `None`; on the empty store (zero
matching rows) it raises. -/
theorem select_row_inverted_witness :
    select_row [row1] "ticket" (Py.tup [Py.str "T1"]) = .ok none ∧
    select_row [] "ticket" (Py.tup [Py.str "T1"]) = .error .runtimeError :=
  ⟨(select_row_inverted [row1] "ticket" (Py.str "T1") (.text "T1")
      (by decide) rfl).1 (by decide),
   ((select_row_inverted [] "ticket" (Py.str "T1") (.text "T1")
      (by decide) rfl).2.1 (by decide))⟩

/-- C10.  Iterating the generator returned by `remove_expired` raises before
yielding any ticket, on every state: its `select_rows` call passes the
keyword argument `operator`, which `select_rows` does not accept.  The sweep
therefore never deletes a record nor removes an artifact. -/
theorem remove_expired_always_fails (ext : Ext) (st : MState) :
    remove_expired ext st = (st, [], some .attributeError) := rfl

/-- C5, counterexample.  `confirm` on the scenario store (one record `T1`,
stored flag `"pending"`) with the descriptor `{ticket: "T1", flag:
"confirmed"}` raises and changes nothing: no record's flag becomes
`"confirmed"` and no timestamp moves, where the claim says the stored flag
becomes `confirmed` and the timestamp is updated. -/
theorem confirm_never_updates_cex :
    confirm st1 dCon = (st1, .error .attributeError) ∧
    (confirm st1 dCon).1.store.map Row.flag = ["pending"] ∧
    (confirm st1 dCon).1.store.map Row.timestamp = [0] :=
  ⟨rfl, rfl, rfl⟩

/-- C5, amended.  For every store state and every descriptor carrying flag
`"confirmed"` (the shape the batch runner dispatches), `confirm` raises an
error — whether or not a record with the descriptor's id exists — and leaves
the store byte-for-byte unchanged: `update_rows` hands `executemany` the flat
pair `(flag, ticket)`, whose first element, the 9-character string
`"confirmed"`, cannot bind the two `?` placeholders.  The `UPDATE` also
targets only the `flag` column, so even its intended success would never
touch `timestamp`. -/
theorem confirm_always_fails (st : MState) (d : Data)
    (h : d.flag = "confirmed") :
    confirm st d = (st, .error .attributeError) ∧
    (confirm st d).1.store = st.store := by
  rw [confirm_confirmed_eq st d h]
  exact ⟨rfl, rfl⟩

/-- Witness for C5: the amended statement at the scenario store and
descriptor. -/
theorem confirm_always_fails_witness :
    confirm st1 dCon = (st1, .error .attributeError) ∧
    (confirm st1 dCon).1.store = st1.store :=
  confirm_always_fails st1 dCon rfl

/-- C8, counterexample.  `generate_password(16)` returns a 24-character
string, not a 16-character one: it maps every character of
`base64.b64encode(os.urandom(16))` — whose length is `4 * ⌈16/3⌉ = 24` —
through the alphabet, and never truncates.  On the all-zero byte stream the
output is fully explicit: the 22 base64 digits `A` (`ord 65 % 62 = 3`,
`alphabet[3] = 'd'`) and the two `=` padding characters
(`ord 61`, `alphabet[61] = '9'`) — the very `99` tail the source's FIXME
comment records. -/
theorem generate_password_length_cex :
    generate_password (fun _ => 0) 16 = .ok "dddddddddddddddddddddd99" ∧
    "dddddddddddddddddddddd99".length = 24 ∧
    (generate_password (fun _ => 0) 16).map String.length = .ok 24 ∧
    (24 : Nat) ≠ 16 :=
  ⟨rfl, rfl, rfl, by decide⟩

/-- C8, amended.  For `n ≥ 1`, `generate_username(n)` returns a string of
length exactly `n` over the letters-and-digits alphabet, and
`generate_password(n)` returns a string over the same alphabet of length
`4 * ⌈n/3⌉` (the base64 length of `n` random bytes) — not `n`; for `n ≤ 0`
both raise (`ValueError` wrapped into `TicketManagerError`). -/
theorem credential_shape (r b : Nat → Nat) (n : Int) :
    (1 ≤ n →
      (∃ s, generate_username r n = .ok s ∧ s.length = n.toNat ∧
        ∀ c ∈ s.data, c ∈ alphabet) ∧
      (∃ s, generate_password b n = .ok s ∧
        s.length = 4 * ((n.toNat + 2) / 3) ∧ ∀ c ∈ s.data, c ∈ alphabet)) ∧
    (n ≤ 0 →
      generate_username r n = .error .ticketManagerError ∧
      generate_password b n = .error .ticketManagerError) := by
  constructor
  · intro h1
    have hnot : ¬ n < 1 := by omega
    constructor
    · refine ⟨pickString r n.toNat, ?_, ?_, ?_⟩
      · rw [generate_username, if_neg hnot]
      · simp [pickString, String.length]
      · intro c hc
        simp only [pickString, String.data] at hc
        rcases List.mem_map.mp hc with ⟨i, _, hi⟩
        rw [← hi]
        exact choice_mem (r i)
    · refine ⟨b64password b n.toNat, ?_, ?_, ?_⟩
      · rw [generate_password, if_neg hnot]
      · simp only [b64password, String.length, String.data, List.length_map]
        rw [b64encode_length]
        simp [urandomBytes]
      · exact fun c hc => b64password_mem b n.toNat c hc
  · intro h0
    have hlt : n < 1 := by omega
    exact ⟨by rw [generate_username, if_pos hlt],
           by rw [generate_password, if_pos hlt]⟩

/-- Witness for C8: the amended statement at `n = 8` (username) and `n = 16`
(password, base64 length 24), plus the rejection at `n = 0`. -/
theorem credential_shape_witness :
    (∃ s, generate_username (fun _ => 0) 8 = .ok s ∧ s.length = 8 ∧
      ∀ c ∈ s.data, c ∈ alphabet) ∧
    (∃ s, generate_password (fun _ => 0) 16 = .ok s ∧ s.length = 24 ∧
      ∀ c ∈ s.data, c ∈ alphabet) ∧
    generate_username (fun _ => 0) 0 = .error .ticketManagerError :=
  ⟨((credential_shape (fun _ => 0) (fun _ => 0) 8).1 (by decide)).1,
   ((credential_shape (fun _ => 0) (fun _ => 0) 16).1 (by decide)).2,
   ((credential_shape (fun _ => 0) (fun _ => 0) 0).2 (by decide)).1⟩

end OpenDACHS
